import Mathlib

/-!
Verification development for the APSystems API client and its
home-automation sensor adapter.

The Python source consists of two files:

* api.py — the APSystemsApi class: HMAC-SHA256 request signing
  (_hmac_sha256, _request_headers), envelope validation and dataclass
  decoding (system_summary, ecu_minutely_energy), and the nested
  dataclasses SystemSummaryData and ECUMinutelyEnergyData with the
  latest_power / latest_energy accessors.
* sensor.py — the APSystemsSensor entity: the available property
  (sunrise/sunset window gating controlled by the sunset configuration
  string) and the update method (broad exception catch setting the state
  to STATE_UNAVAILABLE).

The shallow embedding below models JSON values, Python dict / list /
dataclass-kwargs semantics, UTF-8 encoding, SHA-256, HMAC and base64 as
executable Lean functions, and the network-facing operations as pure
functions of the decoded response body (the HTTP transport itself is
external to the repository).
-/

/-- A decoded JSON value, as produced by Python json.loads: null, booleans,
numbers (Python int or float, modelled as rationals — no arithmetic is ever
performed on them by this client), strings, arrays and objects.  Objects are
association lists; json.loads yields dicts, whose keys are unique and whose
lookup finds the (first and only) matching key. -/
inductive JVal where
  | null : JVal
  | bool (b : Bool) : JVal
  | num (q : Rat) : JVal
  | str (s : String) : JVal
  | arr (items : List JVal) : JVal
  | obj (fields : List (String × JVal)) : JVal

/-- First-match association-list lookup, the semantics of d[key] on a
Python dict decoded from JSON (keys unique, first match is the match). -/
def lookupField : List (String × JVal) → String → Option JVal
  | [], _ => none
  | (k, v) :: rest, key => if k == key then some v else lookupField rest key

/-- The Python exceptions the embedded code paths can raise.
responseException is APSystemsApi.ResponseException; in the source its
message embeds the full decoded response body via json.dumps(data, indent=4);
the embedding carries the decoded body value itself, from which that message
is derived. -/
inductive PyErr where
  | keyError (key : String) : PyErr
  | typeError : PyErr
  | indexError : PyErr
  | responseException (body : JVal) : PyErr

/-- Python subscript v[key] with a string key: dict lookup (KeyError when the
key is missing), TypeError on any non-dict value. -/
def getItemJ (v : JVal) (key : String) : Except PyErr JVal :=
  match v with
  | .obj fields =>
      match lookupField fields key with
      | some x => .ok x
      | none => .error (.keyError key)
  | _ => .error .typeError

/-- Python truth of the comparison data["code"] != 0: numbers compare
numerically, booleans compare as 0/1 (so False != 0 is false), every
non-numeric value is unequal to 0. -/
def pyNeZero : JVal → Bool
  | .num q => q != 0
  | .bool b => b
  | _ => true

/-- dataclass SystemSummaryData of api.py: fields month, year, today,
lifetime.  Python dataclasses perform no runtime type validation, so each
field holds whatever JSON value the response supplied. -/
structure SystemSummaryData where
  month : JVal
  year : JVal
  today : JVal
  lifetime : JVal

/-- dataclass ECUMinutelyEnergyData of api.py: fields today, time, power,
energy (again no runtime type validation). -/
structure ECUMinutelyEnergyData where
  today : JVal
  time : JVal
  power : JVal
  energy : JVal

/-- The field names of SystemSummaryData, in declaration order. -/
def summaryFieldNames : List String := ["month", "year", "today", "lifetime"]

/-- The field names of ECUMinutelyEnergyData, in declaration order. -/
def energyFieldNames : List String := ["today", "time", "power", "energy"]

/-- Python SystemSummaryData(**d) for a dict d: TypeError when d holds a key
that is not a field (unexpected keyword argument) or lacks a field (missing
required argument); otherwise each field is bound to its value in d. -/
def kwargsSystemSummary (fields : List (String × JVal)) :
    Except PyErr SystemSummaryData :=
  if fields.all (fun kv => summaryFieldNames.contains kv.1) then
    match lookupField fields "month", lookupField fields "year",
        lookupField fields "today", lookupField fields "lifetime" with
    | some m, some y, some t, some l => .ok ⟨m, y, t, l⟩
    | _, _, _, _ => .error .typeError
  else .error .typeError

/-- Python ECUMinutelyEnergyData(**d), with the same kwargs semantics. -/
def kwargsECUMinutelyEnergy (fields : List (String × JVal)) :
    Except PyErr ECUMinutelyEnergyData :=
  if fields.all (fun kv => energyFieldNames.contains kv.1) then
    match lookupField fields "today", lookupField fields "time",
        lookupField fields "power", lookupField fields "energy" with
    | some t, some ti, some p, some e => .ok ⟨t, ti, p, e⟩
    | _, _, _, _ => .error .typeError
  else .error .typeError

/-- Response processing of APSystemsApi.system_summary (api.py lines
96-101), as a function of the decoded JSON body: read data["code"]
(KeyError/TypeError possible), raise ResponseException carrying the full
body when code != 0, otherwise build SystemSummaryData(**data["data"])
(the ** unpacking requires a dict and applies kwargs semantics). -/
def system_summary (data : JVal) : Except PyErr SystemSummaryData := do
  let code ← getItemJ data "code"
  if pyNeZero code then
    throw (.responseException data)
  else
    let d ← getItemJ data "data"
    match d with
    | .obj fields => kwargsSystemSummary fields
    | _ => throw .typeError

/-- Response processing of APSystemsApi.ecu_minutely_energy (api.py lines
174-179), identical envelope handling, decoding into
ECUMinutelyEnergyData(**data["data"]). -/
def ecu_minutely_energy (data : JVal) : Except PyErr ECUMinutelyEnergyData := do
  let code ← getItemJ data "code"
  if pyNeZero code then
    throw (.responseException data)
  else
    let d ← getItemJ data "data"
    match d with
    | .obj fields => kwargsECUMinutelyEnergy fields
    | _ => throw .typeError

/-- Python list subscript l[i] with an int index: a negative index counts
from the end (i + len(l)); an index outside [0, len(l)) raises IndexError. -/
def pyIndex (l : List JVal) (i : Int) : Except PyErr JVal :=
  let j := if i < 0 then i + Int.ofNat l.length else i
  if j < 0 then .error .indexError
  else
    match l.get? j.toNat with
    | some v => .ok v
    | none => .error .indexError

/-- The latest_power property of ECUMinutelyEnergyData: self.power[-1].
Python subscripting of a list applies pyIndex; subscripting any
non-subscriptable value raises TypeError (the string case, which in Python
would return a one-character string, does not occur for this field and is
collapsed into the same subscript semantics by returning the last
character). -/
def latest_power (d : ECUMinutelyEnergyData) : Except PyErr JVal :=
  match d.power with
  | .arr l => pyIndex l (-1)
  | .str s =>
      match s.data.getLast? with
      | some c => .ok (.str (String.mk [c]))
      | none => .error .indexError
  | _ => .error .typeError

/-- The latest_energy property of ECUMinutelyEnergyData: self.energy[-1]. -/
def latest_energy (d : ECUMinutelyEnergyData) : Except PyErr JVal :=
  match d.energy with
  | .arr l => pyIndex l (-1)
  | .str s =>
      match s.data.getLast? with
      | some c => .ok (.str (String.mk [c]))
      | none => .error .indexError
  | _ => .error .typeError

/-! ## Sensor adapter (sensor.py) -/

/-- homeassistant STATE_UNAVAILABLE constant. -/
def STATE_UNAVAILABLE : String := "unavailable"

/-- Instants in time.  Python aware datetimes compare by the instant they
denote, so homeassistant.util.dt.as_local (which reattaches the local time
zone without moving the instant) is the identity on this representation. -/
def as_local (t : Int) : Int := t

/-- The available property of APSystemsSensor (sensor.py lines 194-220), as
a function of the sunset configuration string, the instants returned by
find_start_time / find_stop_time (today's local sunrise and sunset, obtained
from the host platform's get_astral_event_date) and the current instant
(now = as_local(utc_now)).  The source returns True immediately when the
configuration string equals "False"; otherwise it returns the truth of
as_local(start_time) <= now <= as_local(stop_time). -/
def available (sunset_cfg : String) (start_time stop_time utc_now : Int) :
    Bool :=
  if sunset_cfg == "False" then true
  else
    let now := as_local utc_now
    decide (as_local start_time ≤ now) && decide (now ≤ as_local stop_time)

/-- The update method of APSystemsSensor (sensor.py lines 222-231), as a
function of the outcome of self._api.system_summary(): the try/except
around the fetch means update is total — every exception from the API
client is caught, and the returned value is the new self._state: the
placeholder marker "TEST" on success, STATE_UNAVAILABLE on any error. -/
def update (fetch : Except PyErr SystemSummaryData) : String :=
  match fetch with
  | .ok _ => "TEST"
  | .error _ => STATE_UNAVAILABLE

/-! ## UTF-8, SHA-256, HMAC and base64

api.py signs with hmac.new(key.encode(), message.encode(), hashlib.sha256)
and base64.b64encode(digest).  str.encode() is UTF-8; hmac/hashlib follow
RFC 2104 / FIPS 180-4; b64encode uses the standard alphabet with padding.
These library primitives are modelled here in full, executably, on byte
lists (Nat values below 256). -/

/-- The UTF-8 encoding of a single code point (Python str.encode()). -/
def utf8Bytes (c : Char) : List Nat :=
  let n := c.toNat
  if n < 0x80 then [n]
  else if n < 0x800 then
    [0xC0 ||| (n >>> 6), 0x80 ||| (n &&& 0x3F)]
  else if n < 0x10000 then
    [0xE0 ||| (n >>> 12), 0x80 ||| ((n >>> 6) &&& 0x3F), 0x80 ||| (n &&& 0x3F)]
  else
    [0xF0 ||| (n >>> 18), 0x80 ||| ((n >>> 12) &&& 0x3F),
     0x80 ||| ((n >>> 6) &&& 0x3F), 0x80 ||| (n &&& 0x3F)]

/-- The UTF-8 encoding of a string, as a byte list. -/
def strBytes (s : String) : List Nat :=
  s.data.foldr (fun c acc => utf8Bytes c ++ acc) []

/-- Truncation to the low 32 bits. -/
def mask32 (x : Nat) : Nat := x &&& 0xFFFFFFFF

/-- Addition modulo 2^32. -/
def add32 (a b : Nat) : Nat := (a + b) % 4294967296

/-- Right rotation of a 32-bit word. -/
def rotr32 (n x : Nat) : Nat := mask32 ((x >>> n) ||| (x <<< (32 - n)))

/-- SHA-256 Ch function. -/
def shaCh (x y z : Nat) : Nat := (x &&& y) ^^^ ((x ^^^ 0xFFFFFFFF) &&& z)

/-- SHA-256 Maj function. -/
def shaMaj (x y z : Nat) : Nat := (x &&& y) ^^^ (x &&& z) ^^^ (y &&& z)

/-- SHA-256 big Sigma0. -/
def bsig0 (x : Nat) : Nat := rotr32 2 x ^^^ rotr32 13 x ^^^ rotr32 22 x

/-- SHA-256 big Sigma1. -/
def bsig1 (x : Nat) : Nat := rotr32 6 x ^^^ rotr32 11 x ^^^ rotr32 25 x

/-- SHA-256 small sigma0. -/
def ssig0 (x : Nat) : Nat := rotr32 7 x ^^^ rotr32 18 x ^^^ (x >>> 3)

/-- SHA-256 small sigma1. -/
def ssig1 (x : Nat) : Nat := rotr32 17 x ^^^ rotr32 19 x ^^^ (x >>> 10)

/-- The SHA-256 round constants K, in decimal. -/
def shaK : List Nat :=
  [1116352408, 1899447441, 3049323471, 3921009573,
   961987163, 1508970993, 2453635748, 2870763221,
   3624381080, 310598401, 607225278, 1426881987,
   1925078388, 2162078206, 2614888103, 3248222580,
   3835390401, 4022224774, 264347078, 604807628,
   770255983, 1249150122, 1555081692, 1996064986,
   2554220882, 2821834349, 2952996808, 3210313671,
   3336571891, 3584528711, 113926993, 338241895,
   666307205, 773529912, 1294757372, 1396182291,
   1695183700, 1986661051, 2177026350, 2456956037,
   2730485921, 2820302411, 3259730800, 3345764771,
   3516065817, 3600352804, 4094571909, 275423344,
   430227734, 506948616, 659060556, 883997877,
   958139571, 1322822218, 1537002063, 1747873779,
   1955562222, 2024104815, 2227730452, 2361852424,
   2428436474, 2756734187, 3204031479, 3329325298]

/-- The eight SHA-256 working/state words. -/
structure Sha256State where
  a : Nat
  b : Nat
  c : Nat
  d : Nat
  e : Nat
  f : Nat
  g : Nat
  h : Nat

/-- The SHA-256 initial hash value. -/
def shaInit : Sha256State :=
  ⟨0x6a09e667, 0xbb67ae85, 0x3c6ef372, 0xa54ff53a,
   0x510e527f, 0x9b05688c, 0x1f83d9ab, 0x5be0cd19⟩

/-- A 64-bit value rendered as eight big-endian bytes. -/
def be64 (n : Nat) : List Nat :=
  [(n >>> 56) &&& 255, (n >>> 48) &&& 255, (n >>> 40) &&& 255,
   (n >>> 32) &&& 255, (n >>> 24) &&& 255, (n >>> 16) &&& 255,
   (n >>> 8) &&& 255, n &&& 255]

/-- A 32-bit word rendered as four big-endian bytes. -/
def be32 (n : Nat) : List Nat :=
  [(n >>> 24) &&& 255, (n >>> 16) &&& 255, (n >>> 8) &&& 255, n &&& 255]

/-- Merkle–Damgård padding: append 0x80, zeros to 56 mod 64, then the bit
length as a 64-bit big-endian quantity. -/
def shaPad (msg : List Nat) : List Nat :=
  let len := msg.length
  let z := (120 - ((len + 1) % 64)) % 64
  msg ++ [0x80] ++ List.replicate z 0 ++ be64 (len * 8)

/-- Big-endian 4-byte grouping of a byte list into 32-bit words. -/
def bytesToWords : List Nat → List Nat
  | a :: b :: c :: d :: rest =>
      ((a <<< 24) ||| (b <<< 16) ||| (c <<< 8) ||| d) :: bytesToWords rest
  | _ => []

/-- Accumulating splitter for chunks64: collects bytes (in reverse) into
acc and emits a block every 64 bytes; a trailing partial block (which never
arises for padded input) is emitted as-is. -/
def chunksAux : List Nat → List Nat → List (List Nat)
  | [], acc => if acc.isEmpty then [] else [acc.reverse]
  | b :: rest, acc =>
      if acc.length == 63 then (b :: acc).reverse :: chunksAux rest []
      else chunksAux rest (b :: acc)

/-- Split a byte list into 64-byte blocks. -/
def chunks64 (l : List Nat) : List (List Nat) := chunksAux l []

/-- The 64-entry message schedule W of one block. -/
def shaSchedule (block : List Nat) : Array Nat :=
  (List.range 48).foldl
    (fun w i =>
      let t := i + 16
      w.push (add32 (add32 (ssig1 (w.getD (t - 2) 0)) (w.getD (t - 7) 0))
        (add32 (ssig0 (w.getD (t - 15) 0)) (w.getD (t - 16) 0))))
    (bytesToWords block).toArray

/-- One SHA-256 round. -/
def shaRound (w : Array Nat) (st : Sha256State) (i : Nat) : Sha256State :=
  let t1 := add32 st.h (add32 (bsig1 st.e)
    (add32 (shaCh st.e st.f st.g) (add32 (shaK.getD i 0) (w.getD i 0))))
  let t2 := add32 (bsig0 st.a) (shaMaj st.a st.b st.c)
  ⟨add32 t1 t2, st.a, st.b, st.c, add32 st.d t1, st.e, st.f, st.g⟩

/-- SHA-256 compression of one 64-byte block. -/
def shaCompress (st : Sha256State) (block : List Nat) : Sha256State :=
  let w := shaSchedule block
  let r := (List.range 64).foldl (shaRound w) st
  ⟨add32 st.a r.a, add32 st.b r.b, add32 st.c r.c, add32 st.d r.d,
   add32 st.e r.e, add32 st.f r.f, add32 st.g r.g, add32 st.h r.h⟩

/-- SHA-256 of a byte list (hashlib.sha256(...).digest()), as 32 bytes. -/
def sha256 (msg : List Nat) : List Nat :=
  let fin := (chunks64 (shaPad msg)).foldl shaCompress shaInit
  be32 fin.a ++ be32 fin.b ++ be32 fin.c ++ be32 fin.d ++
  be32 fin.e ++ be32 fin.f ++ be32 fin.g ++ be32 fin.h

/-- HMAC-SHA256 over byte lists (RFC 2104, as implemented by hmac.new with
hashlib.sha256: block size 64). -/
def hmacSha256 (key msg : List Nat) : List Nat :=
  let k0 := if key.length > 64 then sha256 key else key
  let k := k0 ++ List.replicate (64 - k0.length) 0
  let ipadKey := k.map (fun b => b ^^^ 0x36)
  let opadKey := k.map (fun b => b ^^^ 0x5c)
  sha256 (opadKey ++ sha256 (ipadKey ++ msg))

/-- The standard base64 alphabet. -/
def b64Alphabet : List Char :=
  "ABCDEFGHIJKLMNOPQRSTUVWXYZabcdefghijklmnopqrstuvwxyz0123456789+/".data

/-- The base64 character of a 6-bit value. -/
def b64Char (n : Nat) : Char := b64Alphabet.getD n 'A'

/-- The base64 encoding of a byte list as a character list, with padding. -/
def base64Chars : List Nat → List Char
  | [] => []
  | [a] =>
      [b64Char (a >>> 2), b64Char ((a &&& 3) <<< 4), '=', '=']
  | [a, b] =>
      [b64Char (a >>> 2), b64Char (((a &&& 3) <<< 4) ||| (b >>> 4)),
       b64Char ((b &&& 15) <<< 2), '=']
  | a :: b :: c :: rest =>
      b64Char (a >>> 2) :: b64Char (((a &&& 3) <<< 4) ||| (b >>> 4)) ::
      b64Char (((b &&& 15) <<< 2) ||| (c >>> 6)) :: b64Char (c &&& 63) ::
      base64Chars rest

/-- Python base64.b64encode(...).decode("utf-8") over a byte list. -/
def base64encode (bytes : List Nat) : String :=
  String.mk (base64Chars bytes)

/-! ## Signer (api.py _hmac_sha256 and _request_headers) -/

/-- Python str.split("/") on a character list: splits at every "/", keeping
empty pieces, and yields [""] for the empty string — the semantics of
str.split with an explicit one-character separator.  The result is always
non-empty. -/
def splitSlashChars : List Char → List String
  | [] => [""]
  | c :: rest =>
      let r := splitSlashChars rest
      if c = '/' then "" :: r
      else
        match r with
        | [] => [String.mk [c]]
        | s :: ss => String.mk (c :: s.data) :: ss

/-- Python path.split("/"). -/
def pySplitSlash (path : String) : List String := splitSlashChars path.data

/-- Python requuest_path.split("/")[-1]: the final path segment, i.e. the
text after the last "/" (the whole string when it has no "/").  The split
list is never empty, so the [-1] subscript never raises here. -/
def lastSegment (path : String) : String := (pySplitSlash path).getLast!

/-- APSystemsApi._hmac_sha256 (api.py lines 57-59):
base64.b64encode(hmac.new(key.encode(), message.encode(),
hashlib.sha256).digest()).decode("utf-8"). -/
def hmac_sha256 (key message : String) : String :=
  base64encode (hmacSha256 (strBytes key) (strBytes message))

/-- The canonical signing string built inside _request_headers (api.py
lines 66-78): "/".join([timestamp, nonce, app id, last path segment,
uppercased method, "HmacSHA256"]).  Python str.upper() is modelled by
String.toUpper; the two agree on ASCII, and HTTP method names are ASCII. -/
def signingString (api_app_id timestamp nonce requuest_path
    request_method : String) : String :=
  String.intercalate "/"
    [timestamp, nonce, api_app_id, lastSegment requuest_path,
     request_method.toUpper, "HmacSHA256"]

/-- APSystemsApi._request_headers (api.py lines 61-87), as a function of
the credentials, the method and path, and the two values the source draws
from the environment at call time — X_CA_Timestamp (the current epoch
second, formatted in decimal) and X_CA_Nonce (uuid4().hex).  Returns the
header dict in insertion order. -/
def request_headers (api_app_id api_app_secret request_method requuest_path
    timestamp nonce : String) : List (String × String) :=
  let X_CA_AppId := api_app_id
  let X_CA_Timestamp := timestamp
  let X_CA_Nonce := nonce
  let X_CA_Signature_Method := "HmacSHA256"
  let X_CA_Signature := hmac_sha256 api_app_secret
    (signingString X_CA_AppId X_CA_Timestamp X_CA_Nonce requuest_path
      request_method)
  [("content-type", "application/json"),
   ("x-ca-appid", X_CA_AppId),
   ("x-ca-timestamp", X_CA_Timestamp),
   ("x-ca-nonce", X_CA_Nonce),
   ("x-ca-signature-method", X_CA_Signature_Method),
   ("x-ca-signature", X_CA_Signature)]

/-- Lookup of a header value in the emitted header dict. -/
def lookupHeader : List (String × String) → String → Option String
  | [], _ => none
  | (k, v) :: rest, key => if k == key then some v else lookupHeader rest key

/-! ## The MinutelyEnergySeries data-model invariant (spec section 3)

The spec states the invariant that the three sequences of a
MinutelyEnergySeries have equal length and timestamps in increasing order.
The code performs no such validation, so the invariant is expressed here as
a decidable predicate, both on a decoded record and on the data object of a
response. -/

/-- Comparison of two timestamp values: string order on two JSON strings
(the vendor's zero-padded timestamp strings order chronologically),
false on anything else. -/
def jstrLt (a b : JVal) : Bool :=
  match a, b with
  | .str x, .str y => decide (x < y)
  | _, _ => false

/-- Strictly increasing adjacent-pair ordering of a timestamp list. -/
def timesSortedAux : List JVal → Bool
  | [] => true
  | [_] => true
  | a :: b :: rest => jstrLt a b && timesSortedAux (b :: rest)

/-- The data-model invariant of spec section 3 on a decoded record: time,
power and energy are sequences of equal length and the timestamps are in
increasing order. -/
def seriesInvariant (d : ECUMinutelyEnergyData) : Bool :=
  match d.time, d.power, d.energy with
  | .arr t, .arr p, .arr e =>
      (t.length == p.length) && (p.length == e.length) && timesSortedAux t
  | _, _, _ => false

/-- The same invariant read off the data object of a response. -/
def dataInvariant (dfields : List (String × JVal)) : Bool :=
  match lookupField dfields "time", lookupField dfields "power",
      lookupField dfields "energy" with
  | some (.arr t), some (.arr p), some (.arr e) =>
      (t.length == p.length) && (p.length == e.length) && timesSortedAux t
  | _, _, _ => false

/-- A syntactically valid minutely-energy response whose data object has
sequences of unequal length (two timestamps, one power sample, no energy
samples). -/
def c8BadResponse : JVal :=
  .obj [("code", .num 0),
        ("data", .obj
          [("today", .num 1),
           ("time", .arr [.str "2024-06-01 10:00", .str "2024-06-01 10:05"]),
           ("power", .arr [.num 3]),
           ("energy", .arr [])])]

/-- The record the fetch produces from c8BadResponse. -/
def c8BadRecord : ECUMinutelyEnergyData :=
  ⟨.num 1, .arr [.str "2024-06-01 10:00", .str "2024-06-01 10:05"],
   .arr [.num 3], .arr []⟩

/-- A well-formed minutely-energy data object: equal-length sequences,
increasing timestamps. -/
def c8GoodData : List (String × JVal) :=
  [("today", .num 1),
   ("time", .arr [.str "2024-06-01 10:00", .str "2024-06-01 10:05"]),
   ("power", .arr [.num 3, .num 4]),
   ("energy", .arr [.num 5, .num 6])]

/-- A success-envelope response around c8GoodData. -/
def c8GoodFields : List (String × JVal) :=
  [("code", .num 0), ("data", .obj c8GoodData)]

/-- The record the fetch produces from c8GoodFields. -/
def c8GoodRecord : ECUMinutelyEnergyData :=
  ⟨.num 1, .arr [.str "2024-06-01 10:00", .str "2024-06-01 10:05"],
   .arr [.num 3, .num 4], .arr [.num 5, .num 6]⟩

/-! ## Sanity test vectors for the modelled library primitives -/

/-- Sanity checks of the Python str.split("/")[-1] model: the whole string
when there is no "/", the empty string after a trailing "/", and the text
after the last "/" otherwise. -/
theorem lastSegment_tests :
    lastSegment "/a/b/c" = "c" ∧ lastSegment "" = "" ∧
    lastSegment "abc" = "abc" ∧ lastSegment "a/" = "" ∧
    lastSegment "/user/api/v2/systems/summary/S1" = "S1" :=
  ⟨by decide, by decide, by decide, by decide, by decide⟩

set_option maxRecDepth 40000 in
/-- FIPS 180-4 test vector: SHA-256 of the empty message. -/
theorem sha256_empty_vector :
    sha256 [] =
    [0xe3, 0xb0, 0xc4, 0x42, 0x98, 0xfc, 0x1c, 0x14, 0x9a, 0xfb, 0xf4, 0xc8,
     0x99, 0x6f, 0xb9, 0x24, 0x27, 0xae, 0x41, 0xe4, 0x64, 0x9b, 0x93, 0x4c,
     0xa4, 0x95, 0x99, 0x1b, 0x78, 0x52, 0xb8, 0x55] := by decide

set_option maxRecDepth 100000 in
/-- RFC 4231 test case 1: HMAC-SHA256 with a 20-byte 0x0b key over
"Hi There", base64 of digest b0344c61...2e32cff7. -/
theorem hmac_rfc4231_vector :
    base64encode (hmacSha256 (List.replicate 20 0x0b) (strBytes "Hi There")) =
    "sDRMYdjbOFNcqK/OrwvxK4gdwgDJgz2nJuk3bC4yz/c=" := by decide

/-! ## Helper lemmas -/

/-- On a success envelope (code 0, data an object), system_summary reduces
to the dataclass kwargs construction. -/
lemma system_summary_code0 (fields dfields : List (String × JVal))
    (hcode : lookupField fields "code" = some (.num 0))
    (hdata : lookupField fields "data" = some (.obj dfields)) :
    system_summary (.obj fields) = kwargsSystemSummary dfields := by
  simp [system_summary, getItemJ, hcode, hdata, pyNeZero, Bind.bind,
    Except.bind]

/-- On a success envelope, ecu_minutely_energy reduces to the dataclass
kwargs construction. -/
lemma ecu_minutely_energy_code0 (fields dfields : List (String × JVal))
    (hcode : lookupField fields "code" = some (.num 0))
    (hdata : lookupField fields "data" = some (.obj dfields)) :
    ecu_minutely_energy (.obj fields) = kwargsECUMinutelyEnergy dfields := by
  simp [ecu_minutely_energy, getItemJ, hcode, hdata, pyNeZero, Bind.bind,
    Except.bind]

/-- Python subscript [-1] on an empty list raises IndexError. -/
lemma pyIndex_neg_one_nil : pyIndex [] (-1) = .error .indexError := rfl

/-- Python subscript [-1] on a non-empty list returns its last element. -/
lemma pyIndex_neg_one (l : List JVal) (h : l ≠ []) :
    pyIndex l (-1) = .ok (l.getLast h) := by
  have hlen : 0 < l.length := List.length_pos.mpr h
  simp only [pyIndex, Int.ofNat_eq_natCast]
  have h1 : (if (-1 : Int) < 0 then -1 + (l.length : Int) else -1) =
      ((l.length - 1 : Nat) : Int) := by
    rw [if_pos (by omega)]; omega
  rw [h1, if_neg (by omega), Int.toNat_natCast]
  rw [List.get?_eq_getElem?, List.getElem?_eq_getElem (by omega)]
  simp [List.getLast_eq_getElem]

/-- A key outside the field set makes SystemSummaryData(**d) raise
TypeError (unexpected keyword argument). -/
lemma kwargsSystemSummary_extra (dfields : List (String × JVal))
    (kv : String × JVal) (hmem : kv ∈ dfields)
    (hne : kv.1 ∉ summaryFieldNames) :
    kwargsSystemSummary dfields = .error .typeError := by
  have hall : dfields.all (fun kv => summaryFieldNames.contains kv.1) =
      false := by
    rw [List.all_eq_false]
    exact ⟨kv, hmem, by simpa using hne⟩
  unfold kwargsSystemSummary
  rw [hall]
  simp

/-- A key outside the field set makes ECUMinutelyEnergyData(**d) raise
TypeError (unexpected keyword argument). -/
lemma kwargsECUMinutelyEnergy_extra (dfields : List (String × JVal))
    (kv : String × JVal) (hmem : kv ∈ dfields)
    (hne : kv.1 ∉ energyFieldNames) :
    kwargsECUMinutelyEnergy dfields = .error .typeError := by
  have hall : dfields.all (fun kv => energyFieldNames.contains kv.1) =
      false := by
    rw [List.all_eq_false]
    exact ⟨kv, hmem, by simpa using hne⟩
  unfold kwargsECUMinutelyEnergy
  rw [hall]
  simp

/-- A missing field makes SystemSummaryData(**d) raise TypeError (missing
required argument). -/
lemma kwargsSystemSummary_missing (dfields : List (String × JVal))
    (h : lookupField dfields "month" = none ∨
         lookupField dfields "year" = none ∨
         lookupField dfields "today" = none ∨
         lookupField dfields "lifetime" = none) :
    kwargsSystemSummary dfields = .error .typeError := by
  unfold kwargsSystemSummary
  by_cases hall : dfields.all (fun kv => summaryFieldNames.contains kv.1)
  · simp only [hall, if_true]
    cases hm : lookupField dfields "month" <;>
      cases hy : lookupField dfields "year" <;>
      cases ht : lookupField dfields "today" <;>
      cases hl : lookupField dfields "lifetime" <;>
      simp_all
  · rw [if_neg hall]

/-- A missing field makes ECUMinutelyEnergyData(**d) raise TypeError
(missing required argument). -/
lemma kwargsECUMinutelyEnergy_missing (dfields : List (String × JVal))
    (h : lookupField dfields "today" = none ∨
         lookupField dfields "time" = none ∨
         lookupField dfields "power" = none ∨
         lookupField dfields "energy" = none) :
    kwargsECUMinutelyEnergy dfields = .error .typeError := by
  unfold kwargsECUMinutelyEnergy
  by_cases hall : dfields.all (fun kv => energyFieldNames.contains kv.1)
  · simp only [hall, if_true]
    cases ht : lookupField dfields "today" <;>
      cases hti : lookupField dfields "time" <;>
      cases hp : lookupField dfields "power" <;>
      cases he : lookupField dfields "energy" <;>
      simp_all
  · rw [if_neg hall]

/-- A successful ECUMinutelyEnergyData(**d) binds every field to its value
in the data object. -/
lemma kwargsECUMinutelyEnergy_ok (dfields : List (String × JVal))
    (r : ECUMinutelyEnergyData)
    (h : kwargsECUMinutelyEnergy dfields = .ok r) :
    lookupField dfields "today" = some r.today ∧
    lookupField dfields "time" = some r.time ∧
    lookupField dfields "power" = some r.power ∧
    lookupField dfields "energy" = some r.energy := by
  obtain ⟨rt, rti, rp, re⟩ := r
  unfold kwargsECUMinutelyEnergy at h
  by_cases hall : dfields.all (fun kv => energyFieldNames.contains kv.1)
  · rw [if_pos hall] at h
    cases ht : lookupField dfields "today" <;>
      cases hti : lookupField dfields "time" <;>
      cases hp : lookupField dfields "power" <;>
      cases he : lookupField dfields "energy" <;>
      simp_all
  · rw [if_neg hall] at h
    exact absurd h (by simp)

/-! ## The claims -/

/-- C1: for every HTTP method, request path, application id, secret,
timestamp and nonce, the Signer's canonical signing string is exactly the
"/"-joined concatenation, in fixed order, of timestamp, nonce, application
id, the final path segment of the request path, the HTTP method in
uppercase and the literal "HmacSHA256", and the emitted x-ca-signature
header is the base64 encoding of the HMAC-SHA256 digest of that string
keyed by the shared secret. -/
theorem C1_canonical_signature (request_method requuest_path api_app_id
    api_app_secret timestamp nonce : String) :
    lookupHeader (request_headers api_app_id api_app_secret request_method
      requuest_path timestamp nonce) "x-ca-signature" =
    some (base64encode (hmacSha256 (strBytes api_app_secret)
      (strBytes (timestamp ++ "/" ++ nonce ++ "/" ++ api_app_id ++ "/" ++
        lastSegment requuest_path ++ "/" ++ request_method.toUpper ++ "/" ++
        "HmacSHA256")))) := by
  simp [request_headers, lookupHeader, hmac_sha256, signingString,
    String.intercalate, String.intercalate.go, String.append_assoc]

/-- C2: for every JSON response whose top-level code field holds a non-zero
number, both fetch operations raise ResponseException, and the full decoded
response body is carried in the raised error unmodified. -/
theorem C2_nonzero_code (fields : List (String × JVal)) (q : Rat)
    (hcode : lookupField fields "code" = some (.num q)) (hq : q ≠ 0) :
    system_summary (.obj fields) =
      .error (.responseException (.obj fields)) ∧
    ecu_minutely_energy (.obj fields) =
      .error (.responseException (.obj fields)) := by
  constructor <;>
    simp [system_summary, ecu_minutely_energy, getItemJ, hcode, pyNeZero, hq,
      Bind.bind, Except.bind, throw, throwThe, MonadExceptOf.throw]

/-- Witness for C2 at the response {"code": 1, "data": {}}. -/
theorem C2_witness :
    lookupField [("code", JVal.num 1), ("data", JVal.obj [])] "code" =
      some (JVal.num 1) ∧
    (1 : Rat) ≠ 0 ∧
    system_summary (.obj [("code", JVal.num 1), ("data", JVal.obj [])]) =
      .error (.responseException
        (.obj [("code", JVal.num 1), ("data", JVal.obj [])])) ∧
    ecu_minutely_energy (.obj [("code", JVal.num 1), ("data", JVal.obj [])]) =
      .error (.responseException
        (.obj [("code", JVal.num 1), ("data", JVal.obj [])])) := by
  refine ⟨rfl, by norm_num, ?_, ?_⟩
  · exact (C2_nonzero_code [("code", JVal.num 1), ("data", JVal.obj [])] 1
      rfl (by norm_num)).1
  · exact (C2_nonzero_code [("code", JVal.num 1), ("data", JVal.obj [])] 1
      rfl (by norm_num)).2

/-- C3: for every JSON response with code 0 and an object in data, decoding
into SystemSummaryData (exactly the fields month, year, today, lifetime)
and into ECUMinutelyEnergyData (exactly the fields today, time, power,
energy) fails with TypeError whenever the data object lacks one of the
expected fields or holds any extra unexpected field, rather than silently
defaulting or ignoring it. -/
theorem C3_strict_decode (fields dfields : List (String × JVal))
    (hcode : lookupField fields "code" = some (.num 0))
    (hdata : lookupField fields "data" = some (.obj dfields)) :
    (((∃ f ∈ summaryFieldNames, lookupField dfields f = none) ∨
      (∃ kv ∈ dfields, kv.1 ∉ summaryFieldNames)) →
      system_summary (.obj fields) = .error .typeError) ∧
    (((∃ f ∈ energyFieldNames, lookupField dfields f = none) ∨
      (∃ kv ∈ dfields, kv.1 ∉ energyFieldNames)) →
      ecu_minutely_energy (.obj fields) = .error .typeError) := by
  constructor
  · intro hbad
    rw [system_summary_code0 fields dfields hcode hdata]
    rcases hbad with ⟨f, hf, hnone⟩ | ⟨kv, hmem, hne⟩
    · apply kwargsSystemSummary_missing
      simp only [summaryFieldNames, List.mem_cons, List.not_mem_nil,
        or_false] at hf
      rcases hf with rfl | rfl | rfl | rfl <;> tauto
    · exact kwargsSystemSummary_extra dfields kv hmem hne
  · intro hbad
    rw [ecu_minutely_energy_code0 fields dfields hcode hdata]
    rcases hbad with ⟨f, hf, hnone⟩ | ⟨kv, hmem, hne⟩
    · apply kwargsECUMinutelyEnergy_missing
      simp only [energyFieldNames, List.mem_cons, List.not_mem_nil,
        or_false] at hf
      rcases hf with rfl | rfl | rfl | rfl <;> tauto
    · exact kwargsECUMinutelyEnergy_extra dfields kv hmem hne

/-- Witness for C3 at the response {"code": 0, "data": {"month": 1}}: the
data object is missing the year field of SystemSummaryData and holds the
unexpected month field for ECUMinutelyEnergyData, so both decodes fail. -/
theorem C3_witness :
    system_summary (.obj [("code", JVal.num 0),
        ("data", JVal.obj [("month", JVal.num 1)])]) = .error .typeError ∧
    ecu_minutely_energy (.obj [("code", JVal.num 0),
        ("data", JVal.obj [("month", JVal.num 1)])]) = .error .typeError := by
  have h := C3_strict_decode
    [("code", JVal.num 0), ("data", JVal.obj [("month", JVal.num 1)])]
    [("month", JVal.num 1)] rfl rfl
  refine ⟨h.1 (Or.inl ⟨"year", by simp [summaryFieldNames], rfl⟩),
    h.2 (Or.inr ⟨("month", JVal.num 1), by simp, by simp [energyFieldNames]⟩)⟩

/-- C4: with window gating enabled (the sunset configuration string is not
"False"), available is true exactly when the localized current time lies in
the closed interval from local sunrise to local sunset; with sunrise 06:00
(minute 360) and sunset 20:00 (minute 1200), it is true at exactly 06:00
and exactly 20:00 and false at 05:59 and 20:01. -/
theorem C4_window_inclusive (sunset_cfg : String)
    (start_time stop_time utc_now : Int) (hcfg : sunset_cfg ≠ "False") :
    (available sunset_cfg start_time stop_time utc_now = true ↔
      as_local start_time ≤ as_local utc_now ∧
      as_local utc_now ≤ as_local stop_time) ∧
    available sunset_cfg 360 1200 360 = true ∧
    available sunset_cfg 360 1200 1200 = true ∧
    available sunset_cfg 360 1200 359 = false ∧
    available sunset_cfg 360 1200 1201 = false := by
  have hbeq : (sunset_cfg == "False") = false := by
    simpa using hcfg
  refine ⟨?_, ?_, ?_, ?_, ?_⟩ <;> simp [available, hbeq, as_local]

/-- Witness for C4 with the gating string "on". -/
theorem C4_witness :
    ("on" : String) ≠ "False" ∧
    ((available "on" 360 1200 600 = true ↔
      as_local 360 ≤ as_local 600 ∧ as_local 600 ≤ as_local 1200) ∧
    available "on" 360 1200 360 = true ∧
    available "on" 360 1200 1200 = true ∧
    available "on" 360 1200 359 = false ∧
    available "on" 360 1200 1201 = false) :=
  ⟨by decide, C4_window_inclusive "on" 360 1200 600 (by decide)⟩

/-- C5: with the sunset configuration string set to "False" (window gating
disabled), available is true at every instant — in particular at 00:00
(minute 0) and 23:59 (minute 1439) — regardless of sunrise and sunset. -/
theorem C5_gating_disabled (start_time stop_time utc_now : Int) :
    available "False" start_time stop_time utc_now = true ∧
    available "False" start_time stop_time 0 = true ∧
    available "False" start_time stop_time 1439 = true :=
  ⟨rfl, rfl, rfl⟩

/-- C6: update is a total function of the API client's outcome — no
exception propagates out of it.  On any error (transport,
response-envelope, or decode, all values of PyErr) the state becomes
STATE_UNAVAILABLE; on success it becomes the internal marker "TEST", which
is not STATE_UNAVAILABLE. -/
theorem C6_update_catches (fetch : Except PyErr SystemSummaryData) :
    (∀ e, fetch = .error e → update fetch = STATE_UNAVAILABLE) ∧
    (∀ d, fetch = .ok d →
      update fetch = "TEST" ∧ update fetch ≠ STATE_UNAVAILABLE) := by
  constructor
  · rintro e rfl
    rfl
  · rintro d rfl
    exact ⟨rfl, by simp [update, STATE_UNAVAILABLE]⟩

/-- Witness for C6 at a failed fetch and a successful fetch. -/
theorem C6_witness :
    update (.error .typeError) = STATE_UNAVAILABLE ∧
    update (.ok ⟨.null, .null, .null, .null⟩) = "TEST" :=
  ⟨(C6_update_catches (.error .typeError)).1 .typeError rfl,
   ((C6_update_catches (.ok ⟨.null, .null, .null, .null⟩)).2
      ⟨.null, .null, .null, .null⟩ rfl).1⟩

/-- C7: for every ECUMinutelyEnergyData record whose power and energy
fields are sequences, latest_power and latest_energy return the last
element of the respective sequence when it is non-empty, and raise
IndexError when it is empty. -/
theorem C7_latest_accessors (d : ECUMinutelyEnergyData) (lp le : List JVal)
    (hp : d.power = .arr lp) (he : d.energy = .arr le) :
    (∀ h : lp ≠ [], latest_power d = .ok (lp.getLast h)) ∧
    (lp = [] → latest_power d = .error .indexError) ∧
    (∀ h : le ≠ [], latest_energy d = .ok (le.getLast h)) ∧
    (le = [] → latest_energy d = .error .indexError) := by
  refine ⟨?_, ?_, ?_, ?_⟩
  · intro h
    rw [latest_power, hp]
    exact pyIndex_neg_one lp h
  · rintro rfl
    rw [latest_power, hp]
    exact pyIndex_neg_one_nil
  · intro h
    rw [latest_energy, he]
    exact pyIndex_neg_one le h
  · rintro rfl
    rw [latest_energy, he]
    exact pyIndex_neg_one_nil

/-- Witness for C7 at a record with one power sample and no energy
samples. -/
theorem C7_witness :
    latest_power ⟨.null, .null, .arr [.num 5], .arr []⟩ = .ok (.num 5) ∧
    latest_energy ⟨.null, .null, .arr [.num 5], .arr []⟩ =
      .error .indexError := by
  have h := C7_latest_accessors ⟨.null, .null, .arr [.num 5], .arr []⟩
    [.num 5] [] rfl rfl
  exact ⟨h.1 (by simp), h.2.2.2 rfl⟩

/-- Counterexample to C8 as stated: the minutely-energy fetch accepts a
response whose data object carries two timestamps, one power sample and no
energy samples, and produces a record violating the equal-length invariant
— the client performs no length or ordering validation. -/
theorem C8_counterexample :
    ecu_minutely_energy c8BadResponse = .ok c8BadRecord ∧
    seriesInvariant c8BadRecord = false :=
  ⟨rfl, rfl⟩

/-- C8 (amended): every record produced by the minutely-energy fetch is a
verbatim unpacking of the response's data fields, so the record satisfies
the equal-length/increasing-time invariant exactly when the server's data
already does; the client adds no validation of its own. -/
theorem C8_amended_passthrough (fields dfields : List (String × JVal))
    (r : ECUMinutelyEnergyData)
    (hdata : lookupField fields "data" = some (.obj dfields))
    (hok : ecu_minutely_energy (.obj fields) = .ok r) :
    lookupField dfields "today" = some r.today ∧
    lookupField dfields "time" = some r.time ∧
    lookupField dfields "power" = some r.power ∧
    lookupField dfields "energy" = some r.energy ∧
    (dataInvariant dfields = true → seriesInvariant r = true) := by
  have hk : kwargsECUMinutelyEnergy dfields = .ok r := by
    cases hc : lookupField fields "code" with
    | none =>
        simp [ecu_minutely_energy, getItemJ, hc, Bind.bind, Except.bind]
          at hok
    | some c =>
        by_cases hz : pyNeZero c = true
        · simp [ecu_minutely_energy, getItemJ, hc, hz, Bind.bind,
            Except.bind, throw, throwThe, MonadExceptOf.throw] at hok
        · simp only [Bool.not_eq_true] at hz
          simpa [ecu_minutely_energy, getItemJ, hc, hz, hdata, Bind.bind,
            Except.bind] using hok
  obtain ⟨h1, h2, h3, h4⟩ := kwargsECUMinutelyEnergy_ok dfields r hk
  refine ⟨h1, h2, h3, h4, ?_⟩
  intro hinv
  unfold dataInvariant at hinv
  rw [h2, h3, h4] at hinv
  split at hinv
  · rename_i t p e heq1 heq2 heq3
    injection heq1 with heq1
    injection heq2 with heq2
    injection heq3 with heq3
    unfold seriesInvariant
    rw [heq1, heq2, heq3]
    exact hinv
  · exact absurd hinv (by simp)

/-- Witness for the amended C8 at a well-formed response. -/
theorem C8_witness :
    lookupField c8GoodFields "data" = some (.obj c8GoodData) ∧
    (lookupField c8GoodData "today" = some c8GoodRecord.today ∧
     lookupField c8GoodData "time" = some c8GoodRecord.time ∧
     lookupField c8GoodData "power" = some c8GoodRecord.power ∧
     lookupField c8GoodData "energy" = some c8GoodRecord.energy ∧
     (dataInvariant c8GoodData = true →
       seriesInvariant c8GoodRecord = true)) :=
  ⟨rfl, C8_amended_passthrough c8GoodFields c8GoodData c8GoodRecord rfl rfl⟩

/-- C9: header construction is deterministic given a fixed timestamp and
nonce — any two header sets built from the same method, path, application
id, secret, timestamp and nonce are identical, signature included. -/
theorem C9_deterministic (api_app_id api_app_secret request_method
    requuest_path timestamp nonce : String)
    (h1 h2 : List (String × String))
    (e1 : h1 = request_headers api_app_id api_app_secret request_method
      requuest_path timestamp nonce)
    (e2 : h2 = request_headers api_app_id api_app_secret request_method
      requuest_path timestamp nonce) :
    h1 = h2 ∧
    lookupHeader h1 "x-ca-signature" = lookupHeader h2 "x-ca-signature" := by
  subst e1
  subst e2
  exact ⟨rfl, rfl⟩

/-- Witness for C9 at concrete credentials, path, timestamp and nonce. -/
theorem C9_witness :
    request_headers "app" "sec" "get" "/p/q" "1700000000" "deadbeef" =
      request_headers "app" "sec" "get" "/p/q" "1700000000" "deadbeef" ∧
    lookupHeader (request_headers "app" "sec" "get" "/p/q" "1700000000"
      "deadbeef") "x-ca-signature" =
    lookupHeader (request_headers "app" "sec" "get" "/p/q" "1700000000"
      "deadbeef") "x-ca-signature" :=
  C9_deterministic "app" "sec" "get" "/p/q" "1700000000" "deadbeef" _ _ rfl rfl

/-- C10: the signature ignores everything in the request path before its
final segment — two paths with equal text after the last "/" yield the same
signing string and the same full header set, given the same method,
application id, secret, timestamp and nonce. -/
theorem C10_prefix_independent (p1 p2 : String)
    (hseg : lastSegment p1 = lastSegment p2)
    (api_app_id api_app_secret request_method timestamp nonce : String) :
    signingString api_app_id timestamp nonce p1 request_method =
      signingString api_app_id timestamp nonce p2 request_method ∧
    request_headers api_app_id api_app_secret request_method p1 timestamp
        nonce =
      request_headers api_app_id api_app_secret request_method p2 timestamp
        nonce := by
  have hs : signingString api_app_id timestamp nonce p1 request_method =
      signingString api_app_id timestamp nonce p2 request_method := by
    simp [signingString, hseg]
  exact ⟨hs, by simp [request_headers, hmac_sha256, hs]⟩

/-- Witness for C10: the summary path and an unrelated two-segment path
share the final segment S1 and receive identical headers. -/
theorem C10_witness :
    lastSegment "/user/api/v2/systems/summary/S1" = lastSegment "/mirror/S1" ∧
    request_headers "app" "sec" "get" "/user/api/v2/systems/summary/S1"
      "1700000000" "n0" =
    request_headers "app" "sec" "get" "/mirror/S1" "1700000000" "n0" :=
  ⟨by decide, (C10_prefix_independent "/user/api/v2/systems/summary/S1"
    "/mirror/S1" (by decide) "app" "sec" "get" "1700000000" "n0").2⟩
